import Mathlib

/-!
Verification development for the bodhi update-management service
(`bodhi/views.py`).  The embedding translates the two view functions of the
source file — `query_updates` (GET /updates/) and `new_update`
(POST /updates/) — together with the data they operate on.  Parts of the
repository that the views call but that are not part of the source file
(the colander/cornice validator machinery, `Update.new` / `Update.edit`
and `__json__` from `models.py`) are modelled from the specification and
marked as such in their doc comments.
-/

/-- JSON values, used to state what shape the HTTP responses have. -/
inductive JsonVal where
  | str (s : String)
  | num (n : Nat)
  | jbool (b : Bool)
  | null
  | arr (l : List JsonVal)
  | obj (l : List (String × JsonVal))

/-- A build row: `nvr` identifier plus the package it belongs to
(`Build.package` relationship; a Build belongs to exactly one Package,
inferred from its name-version-release). -/
structure Build where
  nvr : String
  pkg : String
deriving Repr, DecidableEq

/-- The `Update` aggregate, with exactly the columns and relationships that
`views.py` reads: every column mentioned by a `filter`/`filter_by` call of
`query_updates`, plus the `bugs`/`cves`/`builds` relationships it joins.
Bugs are stored by `bug_id`, CVEs by `cve_id`, the release and the
submitting user by name; enum-valued columns are their string literals;
nullable date columns are `Option Nat`. -/
structure Update where
  title : String
  date_approved : Option Nat
  bugs : List Nat
  critpath : Bool
  cves : List String
  locked : Bool
  date_modified : Option Nat
  builds : List Build
  notes : String
  pushed : Bool
  date_pushed : Option Nat
  qa_approved : Bool
  qa_approval_date : Option Nat
  release : String
  releng_approved : Bool
  releng_approval_date : Option Nat
  request : Option String
  security_approved : Bool
  security_approval_date : Option Nat
  severity : String
  status : String
  date_submitted : Option Nat
  suggest : String
  type : String
  user : String
deriving Repr, DecidableEq

/-- The validated query data of a GET request: each recognized option of
`ListUpdateSchema` is independently optional (`request.validated.get(...)`
returns `None` when the option was not supplied). -/
structure Filters where
  approved_since : Option Nat := none
  bugs : Option (List Nat) := none
  critpath : Option Bool := none
  cves : Option (List String) := none
  locked : Option Bool := none
  modified_since : Option Nat := none
  packages : Option (List String) := none
  pushed : Option Bool := none
  pushed_since : Option Nat := none
  qa_approved : Option Bool := none
  qa_approved_since : Option Nat := none
  releases : Option (List String) := none
  releng_approved : Option Bool := none
  releng_approved_since : Option Nat := none
  request : Option String := none
  security_approved : Option Bool := none
  security_approved_since : Option Nat := none
  severity : Option String := none
  status : Option String := none
  submitted_since : Option Nat := none
  suggest : Option String := none
  type : Option String := none
  user : Option String := none
deriving Repr, DecidableEq

/-- A row of the evaluated SQL query: the selected `Update` entity together
with the columns brought in by the joins `query.join(Update.bugs)`,
`query.join(Update.cves)` and `query.join(Update.builds).join(Build.package)`.
Before the corresponding join runs, the joined column is `none`. -/
structure QRow where
  upd : Update
  joinedBug : Option Nat
  joinedCve : Option String
  joinedPkg : Option String
deriving Repr, DecidableEq

/-- SQL comparison `column >= value` on a nullable date column: a NULL
column satisfies no comparison. -/
def geNull (d : Option Nat) (v : Nat) : Bool :=
  match d with
  | none => false
  | some x => decide (v ≤ x)

/-- `data.get(option)` guard of `views.py`: when the option is absent the
whole `if ... is not None` block is skipped (no restriction); when present
the block's restriction applies. -/
def optCheck {α : Type} (o : Option α) (p : α → Bool) : Bool :=
  match o with
  | none => true
  | some v => p v

/-- SQLAlchemy's `or_(*clauses)` over an explicit clause list: a
disjunction of the listed clauses; with zero clauses it compiles away and
the `filter` call imposes no restriction. -/
def orAny {α : Type} (l : List α) (p : α → Bool) : Bool :=
  match l with
  | [] => true
  | _ => l.any p

/-- SQL equality `column == value` on a nullable (pre-join `none`) column:
NULL equals nothing. -/
def optEqNat (o : Option Nat) (i : Nat) : Bool :=
  match o with
  | some b => b == i
  | none => false

/-- String version of `optEqNat`. -/
def optEqStr (o : Option String) (s : String) : Bool :=
  match o with
  | some b => b == s
  | none => false

/-- One `if <option> is not None: query = query.filter(...)` block of
`query_updates` whose condition only reads columns of `Update` (both the
`filter_by(col=v)` and the `filter(Update.col >= v)` forms). -/
def optFilterU {α : Type} (o : Option α) (p : α → Update → Bool) (rows : List QRow) : List QRow :=
  match o with
  | none => rows
  | some v => rows.filter (fun r => p v r.upd)

/-- The `bugs` block: `query.join(Update.bugs)` produces one row per linked
bug (an inner join: updates with no bug produce no row), then
`query.filter(or_(*[Bug.bug_id==bug_id for bug_id in bugs]))` restricts on
the joined column. -/
def joinBugs (o : Option (List Nat)) (rows : List QRow) : List QRow :=
  match o with
  | none => rows
  | some ids =>
      (rows.flatMap fun r => r.upd.bugs.map fun b => { r with joinedBug := some b }).filter
        fun r => orAny ids fun i => optEqNat r.joinedBug i

/-- The `cves` block: `query.join(Update.cves)` then
`query.filter(or_(*[CVE.cve_id==cve_id for cve_id in cves]))`. -/
def joinCves (o : Option (List String)) (rows : List QRow) : List QRow :=
  match o with
  | none => rows
  | some ids =>
      (rows.flatMap fun r => r.upd.cves.map fun c => { r with joinedCve := some c }).filter
        fun r => orAny ids fun i => optEqStr r.joinedCve i

/-- The `packages` block: `query.join(Update.builds).join(Build.package)`
produces one row per build (each build has exactly one package), then
`query.filter(or_(*[Package.name==pkg for pkg in packages]))`. -/
def joinPkgs (o : Option (List String)) (rows : List QRow) : List QRow :=
  match o with
  | none => rows
  | some pkgs =>
      (rows.flatMap fun r => r.upd.builds.map fun b => { r with joinedPkg := some b.pkg }).filter
        fun r => orAny pkgs fun p => optEqStr r.joinedPkg p

/-- The base query `db.query(Update)`: one row per persisted Update, no
joined columns yet. -/
def rowsOf (db : List Update) : List QRow :=
  db.map fun u => { upd := u, joinedBug := none, joinedCve := none, joinedPkg := none }

/-- The query built by `query_updates` (`views.py` lines 28–123): the base
query, then the 23 optional restriction blocks in source order. -/
def query_rows (db : List Update) (data : Filters) : List QRow :=
  rowsOf db
  |> optFilterU data.approved_since (fun v u => geNull u.date_approved v)
  |> joinBugs data.bugs
  |> optFilterU data.critpath (fun v u => u.critpath == v)
  |> joinCves data.cves
  |> optFilterU data.locked (fun v u => u.locked == v)
  |> optFilterU data.modified_since (fun v u => geNull u.date_modified v)
  |> joinPkgs data.packages
  |> optFilterU data.pushed (fun v u => u.pushed == v)
  |> optFilterU data.pushed_since (fun v u => geNull u.date_pushed v)
  |> optFilterU data.qa_approved (fun v u => u.qa_approved == v)
  |> optFilterU data.qa_approved_since (fun v u => geNull u.qa_approval_date v)
  |> optFilterU data.releases (fun rs u => orAny rs fun rl => u.release == rl)
  |> optFilterU data.releng_approved (fun v u => u.releng_approved == v)
  |> optFilterU data.releng_approved_since (fun v u => geNull u.releng_approval_date v)
  |> optFilterU data.request (fun v u => optEqStr u.request v)
  |> optFilterU data.security_approved (fun v u => u.security_approved == v)
  |> optFilterU data.security_approved_since (fun v u => geNull u.security_approval_date v)
  |> optFilterU data.severity (fun v u => u.severity == v)
  |> optFilterU data.status (fun v u => u.status == v)
  |> optFilterU data.submitted_since (fun v u => geNull u.date_submitted v)
  |> optFilterU data.suggest (fun v u => u.suggest == v)
  |> optFilterU data.type (fun v u => u.type == v)
  |> optFilterU data.user (fun v u => u.user == v)

/-- The Update entities the evaluated query yields, row by row (iterating
`query` yields the selected `Update` entity of each row). -/
def resultUpdates (db : List Update) (data : Filters) : List Update :=
  (query_rows db data).map QRow.upd

/-- Modelled from the spec: `Update.__json__` (in `models.py`, not part of
the source file) serializes every declared attribute plus the nested
Build/Bug/CVE identifiers. -/
def optNatJson (o : Option Nat) : JsonVal :=
  match o with
  | none => JsonVal.null
  | some n => JsonVal.num n

/-- Modelled from the spec: nullable string attribute serialization. -/
def optStrJson (o : Option String) : JsonVal :=
  match o with
  | none => JsonVal.null
  | some s => JsonVal.str s

/-- Modelled from the spec: serialization of one Update record — every
declared attribute plus nested Build/Bug/CVE identifiers. -/
def updateToJson (u : Update) : JsonVal :=
  JsonVal.obj
    [ ("title", JsonVal.str u.title)
    , ("date_approved", optNatJson u.date_approved)
    , ("critpath", JsonVal.jbool u.critpath)
    , ("locked", JsonVal.jbool u.locked)
    , ("date_modified", optNatJson u.date_modified)
    , ("notes", JsonVal.str u.notes)
    , ("pushed", JsonVal.jbool u.pushed)
    , ("date_pushed", optNatJson u.date_pushed)
    , ("qa_approved", JsonVal.jbool u.qa_approved)
    , ("qa_approval_date", optNatJson u.qa_approval_date)
    , ("release", JsonVal.str u.release)
    , ("releng_approved", JsonVal.jbool u.releng_approved)
    , ("releng_approval_date", optNatJson u.releng_approval_date)
    , ("request", optStrJson u.request)
    , ("security_approved", JsonVal.jbool u.security_approved)
    , ("security_approval_date", optNatJson u.security_approval_date)
    , ("severity", JsonVal.str u.severity)
    , ("status", JsonVal.str u.status)
    , ("date_submitted", optNatJson u.date_submitted)
    , ("suggest", JsonVal.str u.suggest)
    , ("type", JsonVal.str u.type)
    , ("user", JsonVal.str u.user)
    , ("builds", JsonVal.arr (u.builds.map fun b => JsonVal.str b.nvr))
    , ("bugs", JsonVal.arr (u.bugs.map fun b => JsonVal.num b))
    , ("cves", JsonVal.arr (u.cves.map fun c => JsonVal.str c))
    ]

/-- `query_updates` (`views.py` lines 25–125): builds the composed query and
returns `dict(updates=[u.__json__() for u in query])`. -/
def query_updates (db : List Update) (data : Filters) : JsonVal :=
  JsonVal.obj [("updates", JsonVal.arr ((query_rows db data).map fun r => updateToJson r.upd))]

/-- The update `u` is the selected entity of some row of the query. -/
def occurs (u : Update) (rows : List QRow) : Prop :=
  ∃ r, r ∈ rows ∧ r.upd = u

/-- Semantic restriction the composed query imposes, per option, on an
individual Update: the conjunction of the active blocks' conditions, where
a join block demands an existing linked row whose column satisfies the
(possibly empty) OR clause list. -/
def matchesJoin (data : Filters) (u : Update) : Bool :=
  optCheck data.approved_since (fun v => geNull u.date_approved v) &&
  optCheck data.bugs (fun ids => u.bugs.any fun b => orAny ids fun i => b == i) &&
  optCheck data.critpath (fun v => u.critpath == v) &&
  optCheck data.cves (fun ids => u.cves.any fun c => orAny ids fun i => c == i) &&
  optCheck data.locked (fun v => u.locked == v) &&
  optCheck data.modified_since (fun v => geNull u.date_modified v) &&
  optCheck data.packages (fun pkgs => u.builds.any fun b => orAny pkgs fun p => b.pkg == p) &&
  optCheck data.pushed (fun v => u.pushed == v) &&
  optCheck data.pushed_since (fun v => geNull u.date_pushed v) &&
  optCheck data.qa_approved (fun v => u.qa_approved == v) &&
  optCheck data.qa_approved_since (fun v => geNull u.qa_approval_date v) &&
  optCheck data.releases (fun rs => orAny rs fun rl => u.release == rl) &&
  optCheck data.releng_approved (fun v => u.releng_approved == v) &&
  optCheck data.releng_approved_since (fun v => geNull u.releng_approval_date v) &&
  optCheck data.request (fun v => optEqStr u.request v) &&
  optCheck data.security_approved (fun v => u.security_approved == v) &&
  optCheck data.security_approved_since (fun v => geNull u.security_approval_date v) &&
  optCheck data.severity (fun v => u.severity == v) &&
  optCheck data.status (fun v => u.status == v) &&
  optCheck data.submitted_since (fun v => geNull u.date_submitted v) &&
  optCheck data.suggest (fun v => u.suggest == v) &&
  optCheck data.type (fun v => u.type == v) &&
  optCheck data.user (fun v => u.user == v)

lemma occurs_rowsOf (u : Update) (db : List Update) :
    occurs u (rowsOf db) ↔ u ∈ db := by
  simp [occurs, rowsOf]

lemma occurs_optFilterU {α : Type} (u : Update) (o : Option α) (p : α → Update → Bool)
    (rows : List QRow) :
    occurs u (optFilterU o p rows) ↔ occurs u rows ∧ optCheck o (fun v => p v u) = true := by
  cases o with
  | none => simp [optFilterU, optCheck]
  | some v =>
      simp only [optFilterU, optCheck, occurs, List.mem_filter]
      constructor
      · rintro ⟨r, ⟨hr, hp⟩, hu⟩
        exact ⟨⟨r, hr, hu⟩, hu ▸ hp⟩
      · rintro ⟨⟨r, hr, hu⟩, hp⟩
        exact ⟨r, ⟨hr, hu ▸ hp⟩, hu⟩

lemma occurs_joinBugs (u : Update) (o : Option (List Nat)) (rows : List QRow) :
    occurs u (joinBugs o rows) ↔
      occurs u rows ∧
        optCheck o (fun ids => u.bugs.any fun b => orAny ids fun i => b == i) = true := by
  cases o with
  | none => simp [joinBugs, optCheck]
  | some ids =>
      simp only [joinBugs, optCheck, occurs, List.mem_filter, List.mem_flatMap, List.mem_map]
      constructor
      · rintro ⟨r', ⟨⟨r, hr, b, hb, rfl⟩, hp⟩, hu⟩
        simp only at hu
        refine ⟨⟨r, hr, hu⟩, ?_⟩
        rw [List.any_eq_true]
        exact ⟨b, hu ▸ hb, by simpa [optEqNat] using hp⟩
      · rintro ⟨⟨r, hr, hu⟩, hany⟩
        rw [List.any_eq_true] at hany
        obtain ⟨b, hb, hp⟩ := hany
        exact ⟨{ r with joinedBug := some b }, ⟨⟨r, hr, b, hu ▸ hb, rfl⟩,
          by simpa [optEqNat] using hp⟩, hu⟩

lemma occurs_joinCves (u : Update) (o : Option (List String)) (rows : List QRow) :
    occurs u (joinCves o rows) ↔
      occurs u rows ∧
        optCheck o (fun ids => u.cves.any fun c => orAny ids fun i => c == i) = true := by
  cases o with
  | none => simp [joinCves, optCheck]
  | some ids =>
      simp only [joinCves, optCheck, occurs, List.mem_filter, List.mem_flatMap, List.mem_map]
      constructor
      · rintro ⟨r', ⟨⟨r, hr, c, hc, rfl⟩, hp⟩, hu⟩
        simp only at hu
        refine ⟨⟨r, hr, hu⟩, ?_⟩
        rw [List.any_eq_true]
        exact ⟨c, hu ▸ hc, by simpa [optEqStr] using hp⟩
      · rintro ⟨⟨r, hr, hu⟩, hany⟩
        rw [List.any_eq_true] at hany
        obtain ⟨c, hc, hp⟩ := hany
        exact ⟨{ r with joinedCve := some c }, ⟨⟨r, hr, c, hu ▸ hc, rfl⟩,
          by simpa [optEqStr] using hp⟩, hu⟩

lemma occurs_joinPkgs (u : Update) (o : Option (List String)) (rows : List QRow) :
    occurs u (joinPkgs o rows) ↔
      occurs u rows ∧
        optCheck o (fun pkgs => u.builds.any fun b => orAny pkgs fun p => b.pkg == p) = true := by
  cases o with
  | none => simp [joinPkgs, optCheck]
  | some pkgs =>
      simp only [joinPkgs, optCheck, occurs, List.mem_filter, List.mem_flatMap, List.mem_map]
      constructor
      · rintro ⟨r', ⟨⟨r, hr, b, hb, rfl⟩, hp⟩, hu⟩
        simp only at hu
        refine ⟨⟨r, hr, hu⟩, ?_⟩
        rw [List.any_eq_true]
        exact ⟨b, hu ▸ hb, by simpa [optEqStr] using hp⟩
      · rintro ⟨⟨r, hr, hu⟩, hany⟩
        rw [List.any_eq_true] at hany
        obtain ⟨b, hb, hp⟩ := hany
        exact ⟨{ r with joinedPkg := some b.pkg }, ⟨⟨r, hr, b, hu ▸ hb, rfl⟩,
          by simpa [optEqStr] using hp⟩, hu⟩

/-- Membership characterization of the composed query: an Update occurs in
the results exactly when it is persisted and satisfies the conjunction of
the active restrictions. -/
lemma mem_resultUpdates (u : Update) (db : List Update) (data : Filters) :
    u ∈ resultUpdates db data ↔ u ∈ db ∧ matchesJoin data u = true := by
  have h0 : u ∈ resultUpdates db data ↔ occurs u (query_rows db data) := by
    simp [resultUpdates, occurs, List.mem_map]
  rw [h0]
  simp only [query_rows, Function.comp]
  simp only [occurs_optFilterU, occurs_joinBugs, occurs_joinCves, occurs_joinPkgs,
    occurs_rowsOf, matchesJoin, Bool.and_eq_true, and_assoc]

/-- Restriction table of the specification (section 4.3), stated in its own
words: each present option restricts the base query — exact match for
scalar options, `date >= value` for the `_since` options, and for the
collection options "matches ANY listed id/name/release" (an OR across the
listed values, reached through the corresponding join). -/
def matchesSpecTable (data : Filters) (u : Update) : Bool :=
  optCheck data.approved_since (fun v => geNull u.date_approved v) &&
  optCheck data.bugs (fun ids => u.bugs.any fun b => ids.any fun i => b == i) &&
  optCheck data.critpath (fun v => u.critpath == v) &&
  optCheck data.cves (fun ids => u.cves.any fun c => ids.any fun i => c == i) &&
  optCheck data.locked (fun v => u.locked == v) &&
  optCheck data.modified_since (fun v => geNull u.date_modified v) &&
  optCheck data.packages (fun pkgs => u.builds.any fun b => pkgs.any fun p => b.pkg == p) &&
  optCheck data.pushed (fun v => u.pushed == v) &&
  optCheck data.pushed_since (fun v => geNull u.date_pushed v) &&
  optCheck data.qa_approved (fun v => u.qa_approved == v) &&
  optCheck data.qa_approved_since (fun v => geNull u.qa_approval_date v) &&
  optCheck data.releases (fun rs => rs.any fun rl => u.release == rl) &&
  optCheck data.releng_approved (fun v => u.releng_approved == v) &&
  optCheck data.releng_approved_since (fun v => geNull u.releng_approval_date v) &&
  optCheck data.request (fun v => optEqStr u.request v) &&
  optCheck data.security_approved (fun v => u.security_approved == v) &&
  optCheck data.security_approved_since (fun v => geNull u.security_approval_date v) &&
  optCheck data.severity (fun v => u.severity == v) &&
  optCheck data.status (fun v => u.status == v) &&
  optCheck data.submitted_since (fun v => geNull u.date_submitted v) &&
  optCheck data.suggest (fun v => u.suggest == v) &&
  optCheck data.type (fun v => u.type == v) &&
  optCheck data.user (fun v => u.user == v)

lemma orAny_of_ne_nil {α : Type} {l : List α} (h : l ≠ []) (p : α → Bool) :
    orAny l p = l.any p := by
  cases l with
  | nil => exact absurd rfl h
  | cons a t => rfl

lemma matchesJoin_eq_specTable (data : Filters) (u : Update)
    (hb : data.bugs ≠ some []) (hc : data.cves ≠ some [])
    (hp : data.packages ≠ some []) (hr : data.releases ≠ some []) :
    matchesJoin data u = matchesSpecTable data u := by
  have eb : optCheck data.bugs (fun ids => u.bugs.any fun b => orAny ids fun i => b == i)
      = optCheck data.bugs (fun ids => u.bugs.any fun b => ids.any fun i => b == i) := by
    cases hB : data.bugs with
    | none => rfl
    | some l =>
        have hl : l ≠ [] := fun h => hb (h ▸ hB)
        simp only [optCheck]
        congr 1
        funext b
        rw [orAny_of_ne_nil hl]
  have ec : optCheck data.cves (fun ids => u.cves.any fun c => orAny ids fun i => c == i)
      = optCheck data.cves (fun ids => u.cves.any fun c => ids.any fun i => c == i) := by
    cases hB : data.cves with
    | none => rfl
    | some l =>
        have hl : l ≠ [] := fun h => hc (h ▸ hB)
        simp only [optCheck]
        congr 1
        funext c
        rw [orAny_of_ne_nil hl]
  have ep : optCheck data.packages (fun pkgs => u.builds.any fun b => orAny pkgs fun p => b.pkg == p)
      = optCheck data.packages (fun pkgs => u.builds.any fun b => pkgs.any fun p => b.pkg == p) := by
    cases hB : data.packages with
    | none => rfl
    | some l =>
        have hl : l ≠ [] := fun h => hp (h ▸ hB)
        simp only [optCheck]
        congr 1
        funext b
        rw [orAny_of_ne_nil hl]
  have er : optCheck data.releases (fun rs => orAny rs fun rl => u.release == rl)
      = optCheck data.releases (fun rs => rs.any fun rl => u.release == rl) := by
    cases hB : data.releases with
    | none => rfl
    | some l =>
        have hl : l ≠ [] := fun h => hr (h ▸ hB)
        simp only [optCheck]
        rw [orAny_of_ne_nil hl]
  unfold matchesJoin matchesSpecTable
  rw [eb, ec, ep, er]

/-- C4: for every combination of the recognized filter options, the
composed query restricts the implicit all-Updates base query by the
conjunction (AND) of exactly the restrictions of the present options, each
having the effect of the specification's table (exact match, date >=
value, or OR across the listed ids/names/releases via the corresponding
join); absent options impose no restriction.  Collection options carry
listed values, i.e. are not the empty list (that edge is settled
separately). -/
theorem query_composes_conjunction_of_table_restrictions
    (db : List Update) (data : Filters) (u : Update)
    (hb : data.bugs ≠ some []) (hc : data.cves ≠ some [])
    (hp : data.packages ≠ some []) (hr : data.releases ≠ some []) :
    u ∈ resultUpdates db data ↔ u ∈ db ∧ matchesSpecTable data u = true := by
  rw [mem_resultUpdates, matchesJoin_eq_specTable data u hb hc hp hr]

/-- Concrete scenario data (specification section 8): a stable security
update on F20 and a testing update that matches everything else. -/
def updStable : Update :=
  { title := "foo-1.0-1.fc20"
  , date_approved := some 5
  , bugs := [1001]
  , critpath := false
  , cves := ["CVE-2014-0001"]
  , locked := false
  , date_modified := none
  , builds := [{ nvr := "foo-1.0-1.fc20", pkg := "foo" }]
  , notes := "security fix"
  , pushed := true
  , date_pushed := some 7
  , qa_approved := true
  , qa_approval_date := some 6
  , release := "F20"
  , releng_approved := false
  , releng_approval_date := none
  , request := none
  , security_approved := false
  , security_approval_date := none
  , severity := "high"
  , status := "stable"
  , date_submitted := some 3
  , suggest := "unspecified"
  , type := "security"
  , user := "alice" }

/-- A second Update differing in status (and identity). -/
def updTesting : Update :=
  { updStable with
      title := "bar-2.0-1.fc20"
    , builds := [{ nvr := "bar-2.0-1.fc20", pkg := "bar" }]
    , status := "testing"
    , user := "bob" }

def dbScenario : List Update := [updStable, updTesting]

/-- The scenario filter configuration `status=stable, releases=[F20],
type=security`. -/
def filtersScenario : Filters :=
  { status := some "stable", releases := some ["F20"], type := some "security" }

/-- Witness for C4 at the specification's own scenario: the
characterization holds at a concrete store and filter configuration, the
matching stable security update is returned and the testing one is
excluded. -/
theorem query_composes_conjunction_witness :
    (updStable ∈ resultUpdates dbScenario filtersScenario ↔
      updStable ∈ dbScenario ∧ matchesSpecTable filtersScenario updStable = true) ∧
    updStable ∈ resultUpdates dbScenario filtersScenario ∧
    updTesting ∉ resultUpdates dbScenario filtersScenario :=
  ⟨query_composes_conjunction_of_table_restrictions dbScenario filtersScenario updStable
      (by decide) (by decide) (by decide) (by decide),
    by decide, by decide⟩

/-- `G` is `F` with exactly one previously-absent option set to a value
(one more restriction added). -/
def addOne (F G : Filters) : Prop :=
  (F.approved_since = none ∧ ∃ v, G = { F with approved_since := some v }) ∨
  (F.bugs = none ∧ ∃ v, G = { F with bugs := some v }) ∨
  (F.critpath = none ∧ ∃ v, G = { F with critpath := some v }) ∨
  (F.cves = none ∧ ∃ v, G = { F with cves := some v }) ∨
  (F.locked = none ∧ ∃ v, G = { F with locked := some v }) ∨
  (F.modified_since = none ∧ ∃ v, G = { F with modified_since := some v }) ∨
  (F.packages = none ∧ ∃ v, G = { F with packages := some v }) ∨
  (F.pushed = none ∧ ∃ v, G = { F with pushed := some v }) ∨
  (F.pushed_since = none ∧ ∃ v, G = { F with pushed_since := some v }) ∨
  (F.qa_approved = none ∧ ∃ v, G = { F with qa_approved := some v }) ∨
  (F.qa_approved_since = none ∧ ∃ v, G = { F with qa_approved_since := some v }) ∨
  (F.releases = none ∧ ∃ v, G = { F with releases := some v }) ∨
  (F.releng_approved = none ∧ ∃ v, G = { F with releng_approved := some v }) ∨
  (F.releng_approved_since = none ∧ ∃ v, G = { F with releng_approved_since := some v }) ∨
  (F.request = none ∧ ∃ v, G = { F with request := some v }) ∨
  (F.security_approved = none ∧ ∃ v, G = { F with security_approved := some v }) ∨
  (F.security_approved_since = none ∧ ∃ v, G = { F with security_approved_since := some v }) ∨
  (F.severity = none ∧ ∃ v, G = { F with severity := some v }) ∨
  (F.status = none ∧ ∃ v, G = { F with status := some v }) ∨
  (F.submitted_since = none ∧ ∃ v, G = { F with submitted_since := some v }) ∨
  (F.suggest = none ∧ ∃ v, G = { F with suggest := some v }) ∨
  (F.type = none ∧ ∃ v, G = { F with type := some v }) ∨
  (F.user = none ∧ ∃ v, G = { F with user := some v })

/-- C6: composer monotonicity — over an unchanged store, setting one
previously-absent option never adds a result: the results for the extended
configuration form a subset of the results for the original one. -/
theorem adding_restriction_never_adds_results
    (db : List Update) (F G : Filters) (h : addOne F G) (u : Update)
    (hu : u ∈ resultUpdates db G) : u ∈ resultUpdates db F := by
  rw [mem_resultUpdates] at hu ⊢
  obtain ⟨hmem, hm⟩ := hu
  refine ⟨hmem, ?_⟩
  unfold addOne at h
  rcases h with ⟨hn, v, rfl⟩ | ⟨hn, v, rfl⟩ | ⟨hn, v, rfl⟩ | ⟨hn, v, rfl⟩ | ⟨hn, v, rfl⟩ |
    ⟨hn, v, rfl⟩ | ⟨hn, v, rfl⟩ | ⟨hn, v, rfl⟩ | ⟨hn, v, rfl⟩ | ⟨hn, v, rfl⟩ | ⟨hn, v, rfl⟩ |
    ⟨hn, v, rfl⟩ | ⟨hn, v, rfl⟩ | ⟨hn, v, rfl⟩ | ⟨hn, v, rfl⟩ | ⟨hn, v, rfl⟩ | ⟨hn, v, rfl⟩ |
    ⟨hn, v, rfl⟩ | ⟨hn, v, rfl⟩ | ⟨hn, v, rfl⟩ | ⟨hn, v, rfl⟩ | ⟨hn, v, rfl⟩ | ⟨hn, v, rfl⟩ <;>
    simp_all [matchesJoin, optCheck, Bool.and_eq_true]

/-- The configuration with no option supplied: no restriction at all. -/
def emptyFilters : Filters := {}

/-- One restriction added to the empty configuration; used as a concrete
one-step extension below. -/
def filtersStatusOnly : Filters := { emptyFilters with status := some "stable" }

/-- Witness for C6: at a concrete store, extending the empty configuration
by `status=stable` yields results that were already results of the empty
configuration. -/
theorem adding_restriction_never_adds_results_witness :
    updStable ∈ resultUpdates dbScenario emptyFilters :=
  adding_restriction_never_adds_results dbScenario emptyFilters filtersStatusOnly
    (by
      unfold addOne
      iterate 18 right
      left
      exact ⟨rfl, "stable", rfl⟩)
    updStable (by decide)

/-- The set of titles of the Updates the composed query returns,
order-insensitive and duplicate-insensitive. -/
def titleSet (db : List Update) (data : Filters) : Finset String :=
  ((resultUpdates db data).map Update.title).toFinset

/-- C7: composer determinism/idempotence — two evaluations of the composed
query with identical filters against an unchanged store return the same
set of Update titles.  The embedding of `query_updates` is a pure function
of the store and the validated options, so equal inputs give equal title
sets. -/
theorem compose_twice_same_title_set
    (db1 db2 : List Update) (F1 F2 : Filters) (hdb : db1 = db2) (hF : F1 = F2) :
    titleSet db1 F1 = titleSet db2 F2 := by
  subst hdb
  subst hF
  rfl

/-- Witness for C7 at the concrete scenario store and configuration. -/
theorem compose_twice_same_title_set_witness :
    titleSet dbScenario filtersScenario = titleSet dbScenario filtersScenario :=
  compose_twice_same_title_set dbScenario dbScenario filtersScenario filtersScenario rfl rfl

lemma exists_mem_iff_ne_nil {α : Type} (l : List α) : (∃ x, x ∈ l) ↔ l ≠ [] := by
  cases l with
  | nil => simp
  | cons a t => simp

/-- An Update with no linked bug, no linked CVE and no build. -/
def updNoLinks : Update :=
  { updStable with
      title := "baz-1.0-1.fc20"
    , bugs := []
    , cves := []
    , builds := [] }

/-- C9: supplying `bugs` (likewise `cves`, `packages`) as an empty
collection still performs the corresponding join, so Updates with no
linked Bug (resp. CVE, Build) are excluded, while the OR over zero id
clauses adds no further restriction; in particular an empty collection is
not equivalent to omitting the option. -/
theorem empty_collection_joins_but_no_id_restriction :
    (∀ db u,
      (u ∈ resultUpdates db { emptyFilters with bugs := some [] } ↔ u ∈ db ∧ u.bugs ≠ []) ∧
      (u ∈ resultUpdates db { emptyFilters with cves := some [] } ↔ u ∈ db ∧ u.cves ≠ []) ∧
      (u ∈ resultUpdates db { emptyFilters with packages := some [] } ↔ u ∈ db ∧ u.builds ≠ [])) ∧
    resultUpdates [updNoLinks] { emptyFilters with bugs := some [] } = [] ∧
    resultUpdates [updNoLinks] emptyFilters = [updNoLinks] := by
  refine ⟨?_, by decide, by decide⟩
  intro db u
  refine ⟨?_, ?_, ?_⟩ <;>
    · rw [mem_resultUpdates]
      simp [matchesJoin, optCheck, orAny, emptyFilters, exists_mem_iff_ne_nil]

/-- The persisted store threaded explicitly through the request: the
SQLAlchemy session of `request.db`. -/
structure DbSession where
  records : List Update
deriving Repr, DecidableEq

/-- Reading `db.query(Update)`: yields the persisted Updates and leaves the
session as it was. -/
def sessionQueryAll (s : DbSession) : List Update × DbSession :=
  (s.records, s)

/-- `query_updates` with the store threaded as explicit state: the view
only reads (`db.query`, `filter`, `join`, iteration); it contains no
`add`/`delete`/`commit`. -/
def query_updates_state (s : DbSession) (data : Filters) : JsonVal × DbSession :=
  let a := sessionQueryAll s
  (query_updates a.1 data, a.2)

/-- C10: `query_updates` is read-only — evaluating the composed query for
any filter configuration leaves every persisted record (the Updates and
their Build/Bug/CVE/Package/Release/User associations, all carried in the
records) unchanged, and its response is that of the pure query over the
unchanged records. -/
theorem query_updates_read_only (s : DbSession) (data : Filters) :
    (query_updates_state s data).2 = s ∧
    (query_updates_state s data).1 = query_updates s.records data :=
  ⟨rfl, rfl⟩

/-- Recognizer for the JSON array shape. -/
def isJsonArr (j : JsonVal) : Bool :=
  match j with
  | JsonVal.arr _ => true
  | _ => false

/-- Counterexample to C5: at the concrete store `[updStable]` with no
filter options, the body `query_updates` returns is not a JSON array — it
is the object `dict(updates=[...])` wrapping the array. -/
theorem get_updates_body_is_not_an_array :
    isJsonArr (query_updates [updStable] emptyFilters) = false ∧
    query_updates [updStable] emptyFilters =
      JsonVal.obj [("updates", JsonVal.arr [updateToJson updStable])] :=
  ⟨rfl, rfl⟩

/-- C5 (amended): the response body of GET /updates/ is a JSON object with
the single key `updates` whose value is the JSON array of serialized
Update records, one per result row, each the serialization of a persisted
Update that satisfies the active restrictions. -/
theorem get_updates_body_wraps_serialized_array (db : List Update) (data : Filters) :
    query_updates db data =
      JsonVal.obj
        [("updates", JsonVal.arr ((query_rows db data).map fun r => updateToJson r.upd))] ∧
    ∀ j, j ∈ (query_rows db data).map (fun r => updateToJson r.upd) →
      ∃ u, u ∈ db ∧ matchesJoin data u = true ∧ j = updateToJson u := by
  refine ⟨rfl, ?_⟩
  intro j hj
  rw [List.mem_map] at hj
  obtain ⟨r, hr, rfl⟩ := hj
  have hmem : r.upd ∈ resultUpdates db data := by
    rw [resultUpdates, List.mem_map]
    exact ⟨r, hr, rfl⟩
  rw [mem_resultUpdates] at hmem
  exact ⟨r.upd, hmem.1, hmem.2, rfl⟩

/-- Witness for the amended C5 at the concrete one-update store. -/
theorem get_updates_body_wraps_serialized_array_witness :
    ∃ u, u ∈ [updStable] ∧ matchesJoin emptyFilters u = true ∧
      updateToJson updStable = updateToJson u :=
  (get_updates_body_wraps_serialized_array [updStable] emptyFilters).2
    (updateToJson updStable) (by exact List.mem_singleton_self _)

/-- Pipeline rejection kinds (specification section 7): each validator
failure is a single, specific rejection. -/
inductive PipeErr where
  | invalidBuildIdentifier (nvr : String)
  | invalidVersion (v : String)
  | unknownBuild (nvr : String)
  | releaseMismatch
  | duplicateBuild (nvr : String)
  | untaggedBuild (nvr : String)
  | forbidden (pkg : String)
  | invalidEnumValue (field : String)
  | upstreamUnavailable
deriving Repr, DecidableEq

/-- A build as known to the external build system (the koji collaborator):
its NVR, the release it targets, the tags applied to it, and its package. -/
structure KojiBuild where
  nvr : String
  release : String
  tags : List String
  pkg : String
deriving Repr, DecidableEq

/-- The accumulating validated context a POST submission's validators
share: the raw submission, the collaborator state the validators consult,
and the derived fields the steps append (`nvrs` from step 1, `release`
from step 3). -/
structure PipeCtx where
  user : String
  koji : List KojiBuild
  acls : List (String × String)
  dbUpdates : List Update
  builds : List String
  edited : Option String
  etype : Option String
  erequest : Option String
  eseverity : Option String
  esuggest : Option String
  estatus : Option String
  nvrs : List (String × String × String) := []
  release : Option String := none
deriving Repr, DecidableEq

/-- Split a character list at every dash (the NVR field separator). -/
def splitDash (l : List Char) : List (List Char) :=
  match l with
  | [] => [[]]
  | c :: rest =>
      let r := splitDash rest
      if c = '-' then [] :: r
      else
        match r with
        | [] => [[c]]
        | h :: t => (c :: h) :: t

/-- Parse one NVR string into (name, version, release): the last two
dash-separated fields are the version and the release, the rest is the
name (which may itself contain dashes). -/
def parseNVR (s : String) : Option (String × String × String) :=
  match (splitDash s.toList).reverse with
  | rel :: ver :: n :: rest =>
      let name := String.intercalate "-" (((n :: rest).reverse).map String.mk)
      let verS := String.mk ver
      let relS := String.mk rel
      if name == "" || verS == "" || relS == "" then none else some (name, verS, relS)
  | _ => none

/-- Parse every submitted build identifier, rejecting at the first
malformed one. -/
def parseAll : List String → Except PipeErr (List (String × String × String))
  | [] => Except.ok []
  | b :: rest =>
      match parseNVR b with
      | none => Except.error (PipeErr.invalidBuildIdentifier b)
      | some t => (parseAll rest).map fun ts => t :: ts

/-- Modelled from the spec: `validate_nvrs` (validators.py, not under
src/) — step 1, each build identifier must parse into (name, version,
release); malformed identifiers fail with InvalidBuildIdentifier.  The
parsed triples are appended to the context. -/
def validate_nvrs (ctx : PipeCtx) : Except PipeErr PipeCtx :=
  (parseAll ctx.builds).map fun ts => { ctx with nvrs := ts }

/-- Modelled from the spec: the platform's version-string grammar —
nonempty, alphanumeric characters and dots. -/
def versionOk (v : String) : Bool :=
  (!(v == "")) && v.toList.all fun c => c.isAlphanum || c == '.'

/-- Modelled from the spec: `validate_version` — step 2, every parsed
version component must satisfy the version grammar; failures are
InvalidVersion. -/
def validate_version (ctx : PipeCtx) : Except PipeErr PipeCtx :=
  match ctx.nvrs.find? fun t => !(versionOk t.2.1) with
  | some t => Except.error (PipeErr.invalidVersion t.2.1)
  | none => Except.ok ctx

/-- Look a build identifier up in the build system state. -/
def kojiFind (koji : List KojiBuild) (b : String) : Option KojiBuild :=
  koji.find? fun kb => kb.nvr == b

/-- Modelled from the spec: `validate_builds` — step 3, every build must
exist in the external build system (UnknownBuild otherwise), and all
builds of one submission must target the same Release (ReleaseMismatch
otherwise); the common release is appended to the context. -/
def validate_builds (ctx : PipeCtx) : Except PipeErr PipeCtx :=
  match ctx.builds.find? fun b => (kojiFind ctx.koji b).isNone with
  | some b => Except.error (PipeErr.unknownBuild b)
  | none =>
      match ctx.builds.filterMap fun b => (kojiFind ctx.koji b).map KojiBuild.release with
      | [] => Except.ok ctx
      | r :: rest =>
          if rest.all fun x => x == r then Except.ok { ctx with release := some r }
          else Except.error PipeErr.releaseMismatch

/-- Modelled from the spec: `validate_uniqueness` — step 4, no submitted
build may already belong to a different, non-obsolete Update unless this
is an edit of that very Update; violations are DuplicateBuild. -/
def validate_uniqueness (ctx : PipeCtx) : Except PipeErr PipeCtx :=
  match ctx.builds.find? (fun b => ctx.dbUpdates.any fun up =>
      (!(up.status == "obsolete")) && (up.builds.any fun bb => bb.nvr == b) &&
        (!(ctx.edited == some up.title))) with
  | some b => Except.error (PipeErr.duplicateBuild b)
  | none => Except.ok ctx

/-- Modelled from the spec: the target release's candidate tag
(`Release.candidate_tag`). -/
def candidateTag (rel : String) : String := rel ++ "-updates-candidate"

/-- Modelled from the spec: `validate_tags` — step 5, each build must be
tagged in the build system with the tag appropriate to its target Release;
failures are UntaggedBuild. -/
def validate_tags (ctx : PipeCtx) : Except PipeErr PipeCtx :=
  match ctx.builds.find? (fun b =>
      match kojiFind ctx.koji b with
      | some kb => !(kb.tags.contains (candidateTag kb.release))
      | none => true) with
  | some b => Except.error (PipeErr.untaggedBuild b)
  | none => Except.ok ctx

/-- Modelled from the spec: `validate_acls` — step 6, the requesting user
must have commit/ownership rights on every Package implied by the builds;
failures are Forbidden. -/
def validate_acls (ctx : PipeCtx) : Except PipeErr PipeCtx :=
  match ctx.nvrs.find? (fun t => !(ctx.acls.any fun pr => pr.1 == ctx.user && pr.2 == t.1)) with
  | some t => Except.error (PipeErr.forbidden t.1)
  | none => Except.ok ctx

def typeValues : List String := ["bugfix", "enhancement", "security", "newpackage"]

def requestValues : List String := ["testing", "stable", "obsolete", "unpush"]

def severityValues : List String := ["unspecified", "low", "medium", "high", "urgent"]

def suggestValues : List String := ["unspecified", "reboot", "logout"]

def statusValues : List String := ["pending", "testing", "stable", "obsolete", "unpushed"]

/-- A supplied enum field must be one of the recognized literal values. -/
def enumOk (o : Option String) (vals : List String) : Bool :=
  match o with
  | none => true
  | some s => vals.contains s

/-- Modelled from the spec: `validate_enums` — step 7, every supplied
enum-typed field must be one of its recognized literal values;
unrecognized values fail with InvalidEnumValue. -/
def validate_enums (ctx : PipeCtx) : Except PipeErr PipeCtx :=
  if !(enumOk ctx.etype typeValues) then Except.error (PipeErr.invalidEnumValue "type")
  else if !(enumOk ctx.erequest requestValues) then Except.error (PipeErr.invalidEnumValue "request")
  else if !(enumOk ctx.eseverity severityValues) then Except.error (PipeErr.invalidEnumValue "severity")
  else if !(enumOk ctx.esuggest suggestValues) then Except.error (PipeErr.invalidEnumValue "suggest")
  else if !(enumOk ctx.estatus statusValues) then Except.error (PipeErr.invalidEnumValue "status")
  else Except.ok ctx

/-- Modelled from the spec: the cornice validator loop as the specification
describes it — the named steps run in list order over the shared context,
and a step's failure aborts the remaining steps and returns that step's
rejection.  The first component records which steps ran, in order. -/
def runTraced : List (String × (PipeCtx → Except PipeErr PipeCtx)) → PipeCtx →
    List String × Except PipeErr PipeCtx
  | [], ctx => ([], Except.ok ctx)
  | s :: rest, ctx =>
      match s.2 ctx with
      | Except.error e => ([s.1], Except.error e)
      | Except.ok ctx2 =>
          let t := runTraced rest ctx2
          (s.1 :: t.1, t.2)

/-- The validator tuple of `@updates.post` (`views.py` lines 128–131), in
its source order. -/
def postSteps : List (String × (PipeCtx → Except PipeErr PipeCtx)) :=
  [ ("validate_nvrs", validate_nvrs)
  , ("validate_version", validate_version)
  , ("validate_builds", validate_builds)
  , ("validate_uniqueness", validate_uniqueness)
  , ("validate_tags", validate_tags)
  , ("validate_acls", validate_acls)
  , ("validate_enums", validate_enums) ]

lemma runTraced_ok_trace :
    ∀ (steps : List (String × (PipeCtx → Except PipeErr PipeCtx))) (ctx ctx2 : PipeCtx),
      (runTraced steps ctx).2 = Except.ok ctx2 → (runTraced steps ctx).1 = steps.map Prod.fst := by
  intro steps
  induction steps with
  | nil => intro ctx ctx2 h; rfl
  | cons s rest ih =>
      intro ctx ctx2 h
      cases hs : s.2 ctx with
      | error e => simp [runTraced, hs] at h
      | ok cmid =>
          simp only [runTraced, hs] at h ⊢
          simp only [List.map_cons, List.cons.injEq, true_and]
          exact ih cmid ctx2 h

lemma runTraced_error_split :
    ∀ (steps : List (String × (PipeCtx → Except PipeErr PipeCtx))) (ctx : PipeCtx) (e : PipeErr),
      (runTraced steps ctx).2 = Except.error e →
      ∃ k, ∃ hk : k < steps.length, ∃ cmid,
        runTraced (steps.take k) ctx = ((steps.map Prod.fst).take k, Except.ok cmid) ∧
        (steps.get ⟨k, hk⟩).2 cmid = Except.error e ∧
        (runTraced steps ctx).1 = (steps.map Prod.fst).take (k + 1) := by
  intro steps
  induction steps with
  | nil => intro ctx e h; simp [runTraced] at h
  | cons s rest ih =>
      intro ctx e h
      cases hs : s.2 ctx with
      | error e2 =>
          have he : e2 = e := by simpa [runTraced, hs] using h
          subst he
          refine ⟨0, by simp, ctx, by simp [runTraced], hs, by simp [runTraced, hs]⟩
      | ok cmid =>
          simp only [runTraced, hs] at h
          obtain ⟨k, hk, cm2, h1, h2, h3⟩ := ih cmid e h
          refine ⟨k + 1, by simpa using Nat.succ_lt_succ hk, cm2, ?_, ?_, ?_⟩
          · simp only [List.take_succ_cons, List.map_cons, runTraced, hs, h1]
          · exact h2
          · simp only [runTraced, hs, List.map_cons, List.take_succ_cons, List.cons.injEq, true_and]
            exact h3

/-- C1: for every POST submission to /updates/, the validation steps run in
the fixed source order NVR parse/validate, version validate, builds
validate, uniqueness validate, tags validate, ACL validate, enums
validate; on success every step runs in that order, and any step's failure
aborts all remaining steps (the executed trace stops at the failing step)
and returns exactly that step's rejection — a single error, no
accumulation. -/
theorem post_pipeline_fixed_order_short_circuits :
    postSteps.map Prod.fst =
      ["validate_nvrs", "validate_version", "validate_builds", "validate_uniqueness",
        "validate_tags", "validate_acls", "validate_enums"] ∧
    ∀ ctx : PipeCtx,
      (∀ ctx2, (runTraced postSteps ctx).2 = Except.ok ctx2 →
        (runTraced postSteps ctx).1 = postSteps.map Prod.fst) ∧
      (∀ e, (runTraced postSteps ctx).2 = Except.error e →
        ∃ k, ∃ hk : k < postSteps.length, ∃ cmid,
          runTraced (postSteps.take k) ctx = ((postSteps.map Prod.fst).take k, Except.ok cmid) ∧
          (postSteps.get ⟨k, hk⟩).2 cmid = Except.error e ∧
          (runTraced postSteps ctx).1 = (postSteps.map Prod.fst).take (k + 1)) :=
  ⟨rfl, fun ctx =>
    ⟨fun ctx2 h => runTraced_ok_trace postSteps ctx ctx2 h,
     fun e h => runTraced_error_split postSteps ctx e h⟩⟩

/-- A submission whose build identifier does not parse as an NVR. -/
def ctxBadNvr : PipeCtx :=
  { user := "alice"
  , koji := []
  , acls := []
  , dbUpdates := []
  , builds := ["foo"]
  , edited := none
  , etype := some "bugfix"
  , erequest := none
  , eseverity := none
  , esuggest := none
  , estatus := none }

/-- Witness for C1: on the malformed submission the pipeline stops at the
first step with its specific rejection, having run no later step. -/
theorem post_pipeline_short_circuits_witness :
    ∃ k, ∃ hk : k < postSteps.length, ∃ cmid,
      runTraced (postSteps.take k) ctxBadNvr = ((postSteps.map Prod.fst).take k, Except.ok cmid) ∧
      (postSteps.get ⟨k, hk⟩).2 cmid =
        Except.error (PipeErr.invalidBuildIdentifier "foo") ∧
      (runTraced postSteps ctxBadNvr).1 = (postSteps.map Prod.fst).take (k + 1) :=
  (post_pipeline_fixed_order_short_circuits.2 ctxBadNvr).2
    (PipeErr.invalidBuildIdentifier "foo") rfl

/-- The Pyramid request as `new_update` sees it: the session's persisted
Updates, the authenticated user, the clock, and the package ACLs the
models consult. -/
structure VRequest where
  db : List Update
  user : String
  now : Nat
  acls : List (String × String)
deriving Repr, DecidableEq

/-- `request.validated` of a POST: the body fields of `SaveUpdateSchema`
after validation — the builds list, the optional `edited` title and the
optional metadata fields. -/
structure SubmitData where
  builds : List String
  edited : Option String
  notes : String
  type : String
  bugs : List Nat
  request : Option String
deriving Repr, DecidableEq

/-- Failure kinds of the create-or-edit step (specification section 7). -/
inductive UpdateErr where
  | notFound
  | forbidden
  | conflict
deriving Repr, DecidableEq

/-- The Package implied by a build identifier: the name component of its
NVR. -/
def nvrPackage (s : String) : String :=
  ((parseNVR s).map fun t => t.1).getD s

/-- Resolve submitted NVR strings into Build rows (each belonging to the
Package its name implies). -/
def resolveBuilds (nvrs : List String) : List Build :=
  nvrs.map fun s => { nvr := s, pkg := nvrPackage s }

/-- Byte-wise lexicographic comparison used to sort build identifiers. -/
def charListLe : List Char → List Char → Bool
  | [], _ => true
  | _ :: _, [] => false
  | a :: as, b :: bs => if a = b then charListLe as bs else decide (a < b)

def sortedInsert (s : String) : List String → List String
  | [] => [s]
  | a :: t => if charListLe s.toList a.toList then s :: a :: t else a :: sortedInsert s t

def sortStrings (l : List String) : List String :=
  l.foldr sortedInsert []

/-- Modelled from the spec: an Update's title is the deterministic
function of the sorted set of its builds' identifiers. -/
def deriveTitle (builds : List String) : String :=
  String.intercalate " " (sortStrings builds)

/-- Modelled from the spec: `Update.new` (models.py, not under src/) —
allocate a new Update, associate all resolved Builds, set
`date_submitted = now`, default `status = pending`; the storage layer's
uniqueness constraint rejects a build already belonging to a non-obsolete
Update (ConcurrentConflict). -/
def Update.new (req : VRequest) (data : SubmitData) : Except UpdateErr Update :=
  if data.builds.any (fun b => req.db.any fun up =>
      (!(up.status == "obsolete")) && up.builds.any fun bb => bb.nvr == b) then
    Except.error UpdateErr.conflict
  else
    Except.ok
      { title := deriveTitle data.builds
      , date_approved := none
      , bugs := data.bugs
      , critpath := false
      , cves := []
      , locked := false
      , date_modified := none
      , builds := resolveBuilds data.builds
      , notes := data.notes
      , pushed := false
      , date_pushed := none
      , qa_approved := false
      , qa_approval_date := none
      , release := ((data.builds.head?.bind parseNVR).map fun t => t.2.2).getD ""
      , releng_approved := false
      , releng_approval_date := none
      , request := data.request
      , security_approved := false
      , security_approval_date := none
      , severity := "unspecified"
      , status := "pending"
      , date_submitted := some req.now
      , suggest := "unspecified"
      , type := data.type
      , user := req.user }

/-- Modelled from the spec: `Update.edit` (models.py, not under src/) —
load the existing Update by the `edited` title (NotFound otherwise),
require the submitter or an ACL-authorized maintainer (Forbidden
otherwise), then apply the field-level updates (builds list, notes, type,
bugs, request), re-derive the title from the new builds, and set
`date_modified = now`. -/
def Update.edit (req : VRequest) (data : SubmitData) : Except UpdateErr Update :=
  match data.edited with
  | none => Except.error UpdateErr.notFound
  | some t =>
      match req.db.find? (fun up => up.title == t) with
      | none => Except.error UpdateErr.notFound
      | some up =>
          if up.user == req.user ||
              (resolveBuilds data.builds).all (fun b =>
                req.acls.any fun pr => pr.1 == req.user && pr.2 == b.pkg) then
            Except.ok
              { up with
                  title := deriveTitle data.builds
                , builds := resolveBuilds data.builds
                , notes := data.notes
                , type := data.type
                , bugs := data.bugs
                , request := data.request
                , date_modified := some req.now }
          else Except.error UpdateErr.forbidden

/-- Python truthiness of `data.get('edited')`: absent (`None`) and the
empty string are both falsy. -/
def isTruthy (o : Option String) : Bool :=
  match o with
  | none => false
  | some s => !(s == "")

/-- The `try/except` around the create-or-edit call of `new_update`
(`views.py` lines 142–153, 158): on success the view returns
`up.__json__()` and adds no error; on ANY raised exception the bare
`except:` logs and adds the single cornice error
`('body', 'builds', 'Unable to create update')`, returning no body. -/
def submitResult (r : Except UpdateErr Update) : Option JsonVal × List (String × String × String) :=
  match r with
  | Except.ok up => (some (updateToJson up), [])
  | Except.error _ => (none, [("body", "builds", "Unable to create update")])

/-- `new_update` (`views.py` lines 132–158): dispatch on the truthiness of
`data.get('edited')` — edit when truthy, create otherwise — inside the
bare `try/except`. -/
def new_update (req : VRequest) (data : SubmitData) :
    Option JsonVal × List (String × String × String) :=
  submitResult (if isTruthy data.edited then Update.edit req data else Update.new req data)

/-- A request over an empty store. -/
def reqEmpty : VRequest := { db := [], user := "alice", now := 42, acls := [] }

/-- An edit naming a title that exists in no persisted Update. -/
def dataEditMissing : SubmitData :=
  { builds := ["foo-1.0-1.fc20"]
  , edited := some "nonexistent-1.0-1.fc20"
  , notes := ""
  , type := "bugfix"
  , bugs := []
  , request := none }

/-- A request whose store already holds `updStable` (which owns
`foo-1.0-1.fc20`). -/
def reqWithFoo : VRequest := { db := [updStable], user := "alice", now := 43, acls := [] }

/-- A creation resubmitting the build that `updStable` already owns. -/
def dataCreateDup : SubmitData :=
  { builds := ["foo-1.0-1.fc20"]
  , edited := none
  , notes := ""
  , type := "bugfix"
  , bugs := []
  , request := none }

/-- Counterexample to C2: two failures of distinct kinds (an edit of a
nonexistent title, and a creation losing the build-uniqueness constraint)
are both swallowed by the bare `except:` into the identical single generic
rejection `('body', 'builds', 'Unable to create update')` — the caller
cannot distinguish them and is never told the specific failure kind. -/
theorem create_or_edit_failures_collapse_to_generic :
    Update.edit reqEmpty dataEditMissing = Except.error UpdateErr.notFound ∧
    Update.new reqWithFoo dataCreateDup = Except.error UpdateErr.conflict ∧
    new_update reqEmpty dataEditMissing =
      (none, [("body", "builds", "Unable to create update")]) ∧
    new_update reqWithFoo dataCreateDup =
      (none, [("body", "builds", "Unable to create update")]) ∧
    new_update reqEmpty dataEditMissing = new_update reqWithFoo dataCreateDup :=
  ⟨rfl, rfl, rfl, rfl, rfl⟩

/-- C2 (amended): every failure arising during the create-or-edit step is
caught by the bare `except:` and surfaced to the caller as the one generic
rejection on field `builds`, `('body', 'builds', 'Unable to create
update')`; distinct failure kinds are NOT distinguishable to the caller. -/
theorem create_or_edit_failure_yields_generic_rejection
    (req : VRequest) (data : SubmitData) (e : UpdateErr)
    (h : (if isTruthy data.edited then Update.edit req data else Update.new req data) =
      Except.error e) :
    new_update req data = (none, [("body", "builds", "Unable to create update")]) := by
  simp [new_update, h, submitResult]

/-- Witness for the amended C2 at the concrete missing-title edit. -/
theorem create_or_edit_failure_yields_generic_rejection_witness :
    new_update reqEmpty dataEditMissing =
      (none, [("body", "builds", "Unable to create update")]) :=
  create_or_edit_failure_yields_generic_rejection reqEmpty dataEditMissing
    UpdateErr.notFound rfl

/-- C3: `new_update` dispatches on `edited` — with an existing (nonempty)
title present it edits the Update loaded by that title (applying the
field-level updates and setting `date_modified = now`), with `edited`
absent it creates a new Update (associating all resolved builds, setting
`date_submitted = now` and `status = pending`); on success it returns the
serialized resulting Update with no error. -/
theorem new_update_dispatches_on_edited (req : VRequest) (data : SubmitData) :
    (∀ t, data.edited = some t → t ≠ "" →
      new_update req data = submitResult (Update.edit req data) ∧
      ∀ up, Update.edit req data = Except.ok up →
        up.date_modified = some req.now ∧
        up.builds = resolveBuilds data.builds ∧
        up.notes = data.notes ∧
        up.type = data.type ∧
        up.bugs = data.bugs ∧
        up.request = data.request ∧
        new_update req data = (some (updateToJson up), [])) ∧
    (data.edited = none →
      new_update req data = submitResult (Update.new req data) ∧
      ∀ up, Update.new req data = Except.ok up →
        up.date_submitted = some req.now ∧
        up.status = "pending" ∧
        up.builds = resolveBuilds data.builds ∧
        up.user = req.user ∧
        new_update req data = (some (updateToJson up), [])) := by
  constructor
  · intro t ht hne
    have htr : isTruthy data.edited = true := by
      rw [ht]
      simp [isTruthy, hne]
    refine ⟨by simp [new_update, htr], ?_⟩
    intro up hup
    have hup0 := hup
    simp only [Update.edit, ht] at hup
    cases hf : req.db.find? fun u0 => u0.title == t with
    | none => rw [hf] at hup; simp at hup
    | some u0 =>
        rw [hf] at hup
        dsimp only at hup
        by_cases hcond : (u0.user == req.user ||
            (resolveBuilds data.builds).all fun b =>
              req.acls.any fun pr => pr.1 == req.user && pr.2 == b.pkg) = true
        · rw [if_pos hcond] at hup
          rw [Except.ok.injEq] at hup
          subst hup
          refine ⟨rfl, rfl, rfl, rfl, rfl, rfl, ?_⟩
          simp [new_update, htr, hup0, submitResult]
        · rw [if_neg hcond] at hup
          simp at hup
  · intro ht
    have htr : isTruthy data.edited = false := by rw [ht]; rfl
    refine ⟨by simp [new_update, htr], ?_⟩
    intro up hup
    have hup0 := hup
    simp only [Update.new] at hup
    by_cases hcond : (data.builds.any fun b => req.db.any fun up2 =>
        (!(up2.status == "obsolete")) && up2.builds.any fun bb => bb.nvr == b) = true
    · rw [if_pos hcond] at hup
      simp at hup
    · rw [if_neg hcond] at hup
      rw [Except.ok.injEq] at hup
      subst hup
      refine ⟨rfl, rfl, rfl, rfl, ?_⟩
      simp [new_update, htr, hup0, submitResult]

/-- The Update the creation path produces for `dataCreateDup` over the
empty store at time 42. -/
def upNew : Update :=
  { title := "foo-1.0-1.fc20"
  , date_approved := none
  , bugs := []
  , critpath := false
  , cves := []
  , locked := false
  , date_modified := none
  , builds := [{ nvr := "foo-1.0-1.fc20", pkg := "foo" }]
  , notes := ""
  , pushed := false
  , date_pushed := none
  , qa_approved := false
  , qa_approval_date := none
  , release := "1.fc20"
  , releng_approved := false
  , releng_approval_date := none
  , request := none
  , security_approved := false
  , security_approval_date := none
  , severity := "unspecified"
  , status := "pending"
  , date_submitted := some 42
  , suggest := "unspecified"
  , type := "bugfix"
  , user := "alice" }

/-- Witness for C3 on the creation path at a concrete request: the view
returns the serialized created Update, which carries the creation
markers. -/
theorem new_update_dispatches_on_edited_witness :
    new_update reqEmpty dataCreateDup = (some (updateToJson upNew), []) ∧
    upNew.date_submitted = some reqEmpty.now ∧
    upNew.status = "pending" := by
  have h := (new_update_dispatches_on_edited reqEmpty dataCreateDup).2 rfl
  have h2 := h.2 upNew rfl
  exact ⟨h2.2.2.2.2, h2.1, h2.2.1⟩

/-- C8: a submission whose validated data binds `edited` to a falsy value
— the empty string — takes the creation path (`Update.new`), not the edit
path: the dispatch tests the truthiness of `data.get('edited')`, not the
presence of the key. -/
theorem falsy_edited_takes_creation_path (req : VRequest) (data : SubmitData)
    (h : data.edited = some "") :
    isTruthy data.edited = false ∧
    new_update req data = submitResult (Update.new req data) := by
  have hf : isTruthy data.edited = false := by rw [h]; rfl
  exact ⟨hf, by simp [new_update, hf]⟩

/-- The duplicate-creation data, but with `edited` present and bound to
the empty string. -/
def dataEmptyEdited : SubmitData := { dataCreateDup with edited := some "" }

/-- Witness for C8 at the concrete empty-string `edited`. -/
theorem falsy_edited_takes_creation_path_witness :
    isTruthy dataEmptyEdited.edited = false ∧
    new_update reqEmpty dataEmptyEdited = submitResult (Update.new reqEmpty dataEmptyEdited) :=
  falsy_edited_takes_creation_path reqEmpty dataEmptyEdited rfl
